import Mathlib

/-!
Verification development for the lance-ray datasource adapter
(src/lance_ray/datasource.py). The Python module is shallowly embedded:
pure computations become Lean functions, the mutable scanner-options dict
becomes an explicit address into a small store so that aliasing is visible,
fallible operations return Except, and the lazy generator produced by the
read path is modelled as an explicit generator object whose body runs only
when the iterator is drained.
-/

namespace LanceRay

/-- Identifier metadata attached to a Lance fragment (mirrors the metadata
object of a LanceFragment, of which only the id field is used). -/
structure FragmentMetadata where
  id : Nat
deriving DecidableEq

/-- A data file backing a fragment, exposing its path. -/
structure DataFile where
  path : String
deriving DecidableEq

/-- Model of a Lance fragment. The fields count_rows, data_files and schema
hold the values returned by the corresponding accessors of the external lance
library: count_rows is the unfiltered number of rows stored in the fragment,
data_files the ordered list of backing data files, and schema an opaque
descriptor of the fragment schema. -/
structure Fragment where
  metadata : FragmentMetadata
  count_rows : Nat
  data_files : List DataFile
  schema : String
deriving DecidableEq

/-- Model of an opened lance dataset: the ordered list of its fragments. -/
structure LanceDataset where
  fragments : List Fragment
deriving DecidableEq

/-- Listing the fragments of the dataset, as lance_ds.get_fragments does. -/
def LanceDataset.get_fragments (ds : LanceDataset) : List Fragment :=
  ds.fragments

/-- Resolving a fragment id back to its live fragment object, as
lance_ds.get_fragment does. -/
def LanceDataset.get_fragment (ds : LanceDataset) (i : Nat) : Option Fragment :=
  ds.fragments.find? (fun f => f.metadata.id == i)

/-- A value stored in a scanner-options dictionary. A resolved fragment list
is recorded by the ids of its fragments, since fragments are identified by
stable ids. -/
inductive Val where
  | str : String → Val
  | cols : List String → Val
  | fragments : List Nat → Val
  | other : Nat → Val
deriving DecidableEq

/-- A Python dict of scanner options, modelled as an association list in
insertion order. -/
abbrev Options := List (String × Val)

/-- Dict update: overwrite the binding of the key in place, or append a new
binding, exactly as assignment into a Python dict behaves. -/
def setKey : Options → String → Val → Options
  | [], k, v => [(k, v)]
  | (k1, v1) :: rest, k, v =>
      if k1 = k then (k, v) :: rest else (k1, v1) :: setKey rest k v

/-- Dict lookup. -/
def getKey : Options → String → Option Val
  | [], _ => none
  | (k1, v1) :: rest, k => if k1 = k then some v1 else getKey rest k

/-- Addresses identify Python dict objects, so that aliasing of the mutable
scanner-options dict is explicit in the model. -/
abbrev Addr := Nat

/-- A store of dict objects: an allocation counter plus contents per
address. -/
structure Heap where
  next : Nat
  store : Addr → Options

/-- Reading the dict object at an address. -/
def Heap.read (h : Heap) (a : Addr) : Options :=
  h.store a

/-- Mutating the dict object at an address in place. -/
def Heap.write (h : Heap) (a : Addr) (o : Options) : Heap :=
  { next := h.next, store := fun x => if x = a then o else h.store x }

/-- Allocating a fresh dict object. -/
def Heap.alloc (h : Heap) (o : Options) : Heap × Addr :=
  ({ next := h.next + 1, store := fun x => if x = h.next then o else h.store x },
   h.next)

/-- An error value carrying the exception message. -/
structure Err where
  msg : String
deriving DecidableEq

/-- Section sizes used by numpy array_split: len % n sections of size
len / n + 1 followed by n - len % n sections of size len / n. -/
def sectionSizes (len n : Nat) : List Nat :=
  List.replicate (len % n) (len / n + 1) ++ List.replicate (n - len % n) (len / n)

/-- Cut a list into consecutive sections of the given sizes. -/
def splitBySizes {α : Type} : List α → List Nat → List (List α)
  | _, [] => []
  | l, s :: ss => l.take s :: splitBySizes (l.drop s) ss

/-- np.array_split(l, n): n near-equal contiguous sections when n is at least
one, and a ValueError for any smaller n (numpy raises with the message used
below before producing any section). -/
def array_split {α : Type} (l : List α) (n : Int) : Except Err (List (List α)) :=
  if n ≤ 0 then Except.error ⟨"number sections must be larger than 0."⟩
  else Except.ok (splitBySizes l (sectionSizes l.length n.toNat))

/-- Errors to retry when reading Lance fragments. -/
def READ_FRAGMENTS_ERRORS_TO_RETRY : List String := ["LanceError(IO)"]

/-- Maximum number of attempts to read Lance fragments. -/
def READ_FRAGMENTS_MAX_ATTEMPTS : Nat := 10

/-- Maximum backoff seconds between attempts to read Lance fragments. -/
def READ_FRAGMENTS_RETRY_MAX_BACKOFF_SECONDS : Nat := 32

/-- The retry parameters handed to the retry helper (the _retry_params dict
of the datasource). -/
structure RetryParams where
  description : String
  matchList : List String
  max_attempts : Nat
  max_backoff_s : Nat
deriving DecidableEq

/-- Whether the pattern occurs at the head of the character list. -/
def leadsWith : List Char → List Char → Bool
  | [], _ => true
  | _ :: _, [] => false
  | p :: ps, c :: cs => p == c && leadsWith ps cs

/-- Whether the pattern occurs anywhere in the character list. -/
def occursIn (pat : List Char) : List Char → Bool
  | [] => leadsWith pat []
  | c :: cs => leadsWith pat (c :: cs) || occursIn pat cs

/-- Python substring test: pat in msg. -/
def strContains (msg pat : String) : Bool :=
  occursIn pat.toList msg.toList

/-- Whether an error message contains any of the configured substrings. -/
def matchesAny (msg : String) (pats : List String) : Bool :=
  pats.any (fun p => strContains msg p)

/-- Modelled from the spec: the loop of the host engine retry helper
ray.data._internal.util.call_with_retry, whose source is not part of this
repository. It calls f; when f raises an error whose message contains one of
the given substrings and attempts remain, it sleeps with exponentially
increasing backoff capped at the configured ceiling and retries; a
non-matching error, or the error of a final attempt, propagates. The attempt
counter is passed to f so that the surrounding environment can make distinct
attempts behave differently, and the result is paired with how many attempts
were made. -/
def callWithRetryFrom {α : Type} (f : Nat → Except Err α) (pats : List String) :
    Nat → Nat → Except Err α × Nat
  | n + 2, k =>
      (match f k with
       | Except.ok a => (Except.ok a, k + 1)
       | Except.error e =>
           if matchesAny e.msg pats then callWithRetryFrom f pats (n + 1) (k + 1)
           else (Except.error e, k + 1))
  | _, k => (f k, k + 1)

/-- Modelled from the spec: the entry point of the retry helper. The
description is only used for diagnostics and max_backoff_s only bounds the
sleep lengths, so neither influences which value is returned; both are
accepted to mirror the helper signature. -/
def call_with_retry {α : Type} (f : Nat → Except Err α) (description : String)
    (pats : List String) (max_attempts : Nat) (max_backoff_s : Nat) :
    Except Err α × Nat :=
  callWithRetryFrom f pats max_attempts 0

/-- A columnar batch, wrapped as a single-batch table before being yielded. -/
structure Batch where
  rows : List Nat
deriving DecidableEq

/-- Outcome of one execution of the body of _read_fragments: the body can
raise while resolving fragment ids (before the options dict is touched),
raise while building the scanner or its reader (after the fragment list was
written into the options dict), or yield batches and then either finish or
raise mid-iteration. -/
inductive ScanOutcome where
  | resolveFail : Err → ScanOutcome
  | scanFail : Err → ScanOutcome
  | yields : List Batch → Option Err → ScanOutcome

/-- Storage-layer behaviour: what the k-th execution of the generator body
does. -/
structure ScanEnv where
  outcome : Nat → ScanOutcome

/-- What the consumer of the generator observes when draining it: the batches
yielded before the generator finished or raised, and the raised error if
any. -/
structure DrainResult where
  yielded : List Batch
  err : Option Err
deriving DecidableEq

/-- A Python generator object returned by calling the generator function
_read_fragments: it captures the arguments, and none of the body has run
yet. -/
structure Generator where
  env : ScanEnv
  attempt : Nat
  fragment_ids : List Nat
  lance_ds : LanceDataset
  scanner_options : Addr

/-- Driving the generator executes the body of _read_fragments once: it
resolves each fragment id via lance_ds.get_fragment, stores the resolved
fragment list into the shared scanner-options dict under the fragments key,
builds the scanner from the merged options, and yields each batch. The
environment decides where, if anywhere, this attempt raises. -/
def Generator.drain (g : Generator) (h : Heap) : DrainResult × Heap :=
  match g.env.outcome g.attempt with
  | ScanOutcome.resolveFail e => (⟨[], some e⟩, h)
  | ScanOutcome.scanFail e =>
      (⟨[], some e⟩,
        h.write g.scanner_options
          (setKey (h.read g.scanner_options) "fragments"
            (Val.fragments
              ((g.fragment_ids.filterMap g.lance_ds.get_fragment).map
                (fun f => f.metadata.id)))))
  | ScanOutcome.yields bs after =>
      (⟨bs, after⟩,
        h.write g.scanner_options
          (setKey (h.read g.scanner_options) "fragments"
            (Val.fragments
              ((g.fragment_ids.filterMap g.lance_ds.get_fragment).map
                (fun f => f.metadata.id)))))

/-- _read_fragments is a Python generator function: calling it only builds
the generator object capturing the arguments, and no statement of the body
runs until the returned iterator is driven. -/
def _read_fragments (env : ScanEnv) (attempt : Nat) (fragment_ids : List Nat)
    (lance_ds : LanceDataset) (scanner_options : Addr) : Generator :=
  { env := env
    attempt := attempt
    fragment_ids := fragment_ids
    lance_ds := lance_ds
    scanner_options := scanner_options }

/-- _read_fragments_with_retry wraps the call of the generator function in
call_with_retry. Calling a generator function cannot raise, which is why the
retried thunk always returns Except.ok. -/
def _read_fragments_with_retry (env : ScanEnv) (fragment_ids : List Nat)
    (lance_ds : LanceDataset) (scanner_options : Addr)
    (retry_params : RetryParams) : Except Err Generator × Nat :=
  call_with_retry
    (fun k => Except.ok (_read_fragments env k fragment_ids lance_ds scanner_options))
    retry_params.description retry_params.matchList retry_params.max_attempts
    retry_params.max_backoff_s

/-- Block metadata reported for one read task. -/
structure BlockMetadata where
  num_rows : Nat
  schema : Option String
  input_files : List String
  size_bytes : Option Nat
  exec_stats : Option Unit
deriving DecidableEq

/-- The read task handed to the engine: the arguments captured by the
deferred callable, plus the precomputed block metadata. -/
structure ReadTaskRepr where
  fragment_ids : List Nat
  lance_ds : LanceDataset
  scanner_options : Addr
  retry_params : RetryParams
  metadata : BlockMetadata
deriving DecidableEq

/-- create_read_task binds its arguments and pairs the deferred callable
with the metadata. -/
def create_read_task (fragment_ids : List Nat) (lance_ds : LanceDataset)
    (scanner_options : Addr) (retry_params : RetryParams)
    (metadata : BlockMetadata) : ReadTaskRepr :=
  { fragment_ids := fragment_ids
    lance_ds := lance_ds
    scanner_options := scanner_options
    retry_params := retry_params
    metadata := metadata }

/-- The datasource object after construction. -/
structure LanceDatasource where
  uri : String
  scanner_options : Addr
  storage_options : Option (List (String × String))
  lance_ds : LanceDataset
  retry_params : RetryParams
deriving DecidableEq

/-- The expression scanner_options or \x7b\x7d of the constructor: Python
keeps the caller dict object only when it is truthy, that is non-None and
non-empty; otherwise the or-expression evaluates its right operand and a
fresh empty dict object is allocated. -/
def orEmptyDict (scanner_options : Option Addr) (h : Heap) : Heap × Addr :=
  match scanner_options with
  | none => h.alloc []
  | some a => if h.read a = [] then h.alloc [] else (h, a)

/-- The constructor of LanceDatasource. Given columns and filter are written
into the kept scanner-options dict in place. The retried_io_errors argument
is the one-time snapshot of DataContext.get_current().retried_io_errors, and
lance_ds the dataset handle opened from the uri. -/
def LanceDatasource.init (uri : String) (columns : Option (List String))
    (filter : Option String) (storage_options : Option (List (String × String)))
    (scanner_options : Option Addr) (retried_io_errors : List String)
    (lance_ds : LanceDataset) (h : Heap) : LanceDatasource × Heap :=
  let alloc0 : Heap × Addr := orEmptyDict scanner_options h
  let h1 := alloc0.1
  let a := alloc0.2
  let h2 :=
    match columns with
    | some cs => h1.write a (setKey (h1.read a) "columns" (Val.cols cs))
    | none => h1
  let h3 :=
    match filter with
    | some f => h2.write a (setKey (h2.read a) "filter" (Val.str f))
    | none => h2
  ({ uri := uri
     scanner_options := a
     storage_options := storage_options
     lance_ds := lance_ds
     retry_params :=
       { description := "read lance fragments"
         matchList := READ_FRAGMENTS_ERRORS_TO_RETRY ++ retried_io_errors
         max_attempts := READ_FRAGMENTS_MAX_ATTEMPTS
         max_backoff_s := READ_FRAGMENTS_RETRY_MAX_BACKOFF_SECONDS } }, h3)

/-- The body of the get_read_tasks loop for one group of fragments: collect
the fragment ids, sum the per-fragment row counts, collect all data file
paths, take the schema of the first fragment, and capture the shared
scanner-options dict and the retry parameters in the read task. -/
def taskOfGroup (st : LanceDatasource) (fragments : List Fragment) : ReadTaskRepr :=
  create_read_task (fragments.map (fun f => f.metadata.id)) st.lance_ds
    st.scanner_options st.retry_params
    { num_rows := (fragments.map Fragment.count_rows).sum
      schema := fragments.head?.map Fragment.schema
      input_files := fragments.flatMap (fun f => f.data_files.map DataFile.path)
      size_bytes := none
      exec_stats := none }

/-- get_read_tasks: split the fragment list with np.array_split, skip empty
groups, and build one read task per remaining group. -/
def get_read_tasks (st : LanceDatasource) (parallelism : Int) :
    Except Err (List ReadTaskRepr) :=
  match array_split st.lance_ds.get_fragments parallelism with
  | Except.error e => Except.error e
  | Except.ok groups =>
      Except.ok ((groups.filter (fun fragments => !fragments.isEmpty)).map
        (taskOfGroup st))

/-- estimate_inmemory_data_size always returns None. -/
def estimate_inmemory_data_size (_ : LanceDatasource) : Option Nat :=
  none

/-- The engine invokes the deferred callable of a read task and drains the
returned iterator: _read_fragments_with_retry runs first (wrapping only the
construction of the generator), then the generator body executes while the
engine consumes batches. -/
def invokeReadTask (env : ScanEnv) (t : ReadTaskRepr) (h : Heap) :
    DrainResult × Heap :=
  match _read_fragments_with_retry env t.fragment_ids t.lance_ds
      t.scanner_options t.retry_params with
  | (Except.ok g, _) => g.drain h
  | (Except.error e, _) => (⟨[], some e⟩, h)

/-- One whole batch-production attempt as a single fallible call: the result
a retry helper would observe if it wrapped the full body of _read_fragments
rather than just the construction of the generator. -/
def attemptOutcome (env : ScanEnv) (k : Nat) : Except Err (List Batch) :=
  match env.outcome k with
  | ScanOutcome.resolveFail e => Except.error e
  | ScanOutcome.scanFail e => Except.error e
  | ScanOutcome.yields _ (some e) => Except.error e
  | ScanOutcome.yields bs none => Except.ok bs

/-- A concrete three-fragment dataset used to instantiate the theorems. -/
def sampleFragments : List Fragment :=
  [{ metadata := ⟨0⟩, count_rows := 100,
     data_files := [⟨"frag-0-a.lance"⟩, ⟨"frag-0-b.lance"⟩], schema := "schema0" },
   { metadata := ⟨1⟩, count_rows := 50,
     data_files := [⟨"frag-1-a.lance"⟩], schema := "schema0" },
   { metadata := ⟨2⟩, count_rows := 75,
     data_files := [⟨"frag-2-a.lance"⟩], schema := "schema0" }]

/-- The concrete dataset handle over sampleFragments. -/
def sampleDs : LanceDataset := ⟨sampleFragments⟩

/-- A store with no dict objects allocated yet. -/
def emptyHeap : Heap := { next := 0, store := fun _ => [] }

/-- A concrete datasource construction: projection on column a, a filter, no
caller scanner-options dict, and one engine-configured transient
signature. -/
def sampleInit : LanceDatasource × Heap :=
  LanceDatasource.init "mem://sample" (some ["a"]) (some "a > 5") none none
    ["Timeout"] sampleDs emptyHeap

/-- The concrete constructed datasource. -/
def sampleSt : LanceDatasource := sampleInit.1

/-- The store after the concrete construction. -/
def sampleHeap : Heap := sampleInit.2

/-- The read tasks produced for the sample dataset at parallelism two. -/
def sampleTasks : List ReadTaskRepr :=
  [taskOfGroup sampleSt (sampleFragments.take 2),
   taskOfGroup sampleSt (sampleFragments.drop 2)]

/-- The first sample read task, covering fragments 0 and 1. -/
def sampleTask0 : ReadTaskRepr := taskOfGroup sampleSt (sampleFragments.take 2)

/-- A construction identical to sampleInit except for the filter
expression. -/
def sampleInit2 : LanceDatasource × Heap :=
  LanceDatasource.init "mem://sample" (some ["a"]) (some "a < 0") none none
    ["Timeout"] sampleDs emptyHeap

/-- The datasource constructed with the other filter. -/
def sampleSt2 : LanceDatasource := sampleInit2.1

/-- The read tasks of the other-filter datasource at parallelism two. -/
def sampleTasks2 : List ReadTaskRepr :=
  [taskOfGroup sampleSt2 (sampleFragments.take 2),
   taskOfGroup sampleSt2 (sampleFragments.drop 2)]

/-- A storage environment whose first scan attempt yields one batch and then
raises a transient I/O error mid-iteration, while every later attempt would
succeed with two batches. -/
def env1 : ScanEnv :=
  ⟨fun k =>
    if k = 0 then
      ScanOutcome.yields [⟨[1]⟩] (some ⟨"LanceError(IO): connection reset"⟩)
    else ScanOutcome.yields [⟨[1]⟩, ⟨[2]⟩] none⟩

/-- A storage environment in which every attempt succeeds with one batch. -/
def okEnv : ScanEnv := ⟨fun _ => ScanOutcome.yields [⟨[1]⟩] none⟩

/-- A store holding one non-empty caller dict at address zero. -/
def heapWithDict : Heap := (emptyHeap.alloc [("existing", Val.other 1)]).1

/-- A store holding one empty caller dict object at address zero. -/
def heapWithEmptyDict : Heap := (emptyHeap.alloc []).1

/-- A store holding a caller dict that already binds the columns and filter
keys. -/
def heapPrior : Heap :=
  (emptyHeap.alloc [("columns", Val.cols ["old"]), ("filter", Val.str "old")]).1

/-- A construction that passes the non-empty caller dict of heapPrior (at
address zero) as scanner_options, together with a projection and a filter
that collide with its existing keys. -/
def priorInit : LanceDatasource × Heap :=
  LanceDatasource.init "mem://prior" (some ["a", "b"]) (some "x = 1") none
    (some 0) [] sampleDs heapPrior

/-- The read tasks of the priorInit datasource at parallelism two. -/
def priorTasks : List ReadTaskRepr :=
  [taskOfGroup priorInit.1 (sampleFragments.take 2),
   taskOfGroup priorInit.1 (sampleFragments.drop 2)]

/-- The sum of a replicated list. -/
theorem sum_replicate_nat (k x : Nat) : (List.replicate k x).sum = k * x := by
  induction k with
  | zero => simp
  | succ k ih =>
      rw [List.replicate_succ, List.sum_cons, ih, Nat.succ_mul]
      exact Nat.add_comm x (k * x)

/-- The numpy section sizes sum to the length being split. -/
theorem sectionSizes_sum (len n : Nat) (hn : 1 ≤ n) :
    (sectionSizes len n).sum = len := by
  have hm : len % n < n := Nat.mod_lt _ (by omega)
  have hd := Nat.div_add_mod len n
  rw [sectionSizes, List.sum_append, sum_replicate_nat, sum_replicate_nat]
  generalize hq : len / n = q at hd ⊢
  generalize hmm : len % n = m at hd hm ⊢
  obtain ⟨d, hdn⟩ := Nat.exists_eq_add_of_le hm.le
  rw [hdn, Nat.add_sub_cancel_left]
  rw [hdn, Nat.add_mul] at hd
  rw [Nat.mul_add, Nat.mul_one]
  linarith

/-- numpy always produces exactly n sections. -/
theorem sectionSizes_length (len n : Nat) (hn : 1 ≤ n) :
    (sectionSizes len n).length = n := by
  have hm : len % n < n := Nat.mod_lt _ (by omega)
  simp [sectionSizes]
  omega

/-- Every numpy section size is the quotient or the quotient plus one. -/
theorem sectionSizes_mem (len n s : Nat) (hs : s ∈ sectionSizes len n) :
    s = len / n ∨ s = len / n + 1 := by
  rw [sectionSizes, List.mem_append] at hs
  rcases hs with h | h
  · exact Or.inr (List.eq_of_mem_replicate h)
  · exact Or.inl (List.eq_of_mem_replicate h)

/-- Splitting by sizes that cover the list and joining the pieces gives the
list back. -/
theorem splitBySizes_join {α : Type} :
    ∀ (ss : List Nat) (l : List α), l.length ≤ ss.sum →
      (splitBySizes l ss).flatten = l := by
  intro ss
  induction ss with
  | nil =>
      intro l hl
      simp only [List.sum_nil, Nat.le_zero, List.length_eq_zero] at hl
      subst hl
      rfl
  | cons s ss ih =>
      intro l hl
      rw [List.sum_cons] at hl
      show l.take s ++ (splitBySizes (l.drop s) ss).flatten = l
      rw [ih (l.drop s) (by rw [List.length_drop]; omega)]
      exact List.take_append_drop s l

/-- Splitting by sizes yields one piece per size. -/
theorem splitBySizes_length {α : Type} :
    ∀ (ss : List Nat) (l : List α), (splitBySizes l ss).length = ss.length := by
  intro ss
  induction ss with
  | nil => intro l; rfl
  | cons s ss ih =>
      intro l
      show (splitBySizes (l.drop s) ss).length + 1 = ss.length + 1
      rw [ih]

/-- When the sizes do not exceed the list, each piece has exactly its
requested size. -/
theorem splitBySizes_lengths {α : Type} :
    ∀ (ss : List Nat) (l : List α), ss.sum ≤ l.length →
      (splitBySizes l ss).map List.length = ss := by
  intro ss
  induction ss with
  | nil => intro l _; rfl
  | cons s ss ih =>
      intro l hl
      rw [List.sum_cons] at hl
      show (l.take s).length :: (splitBySizes (l.drop s) ss).map List.length = s :: ss
      rw [List.length_take, ih (l.drop s) (by rw [List.length_drop]; omega)]
      congr 1
      omega

/-- Every piece produced by splitBySizes is a contiguous segment of the
original list. -/
theorem splitBySizes_mem_contig {α : Type} :
    ∀ (ss : List Nat) (l g : List α), g ∈ splitBySizes l ss →
      ∃ u v, l = u ++ g ++ v := by
  intro ss
  induction ss with
  | nil =>
      intro l g hg
      simp [splitBySizes] at hg
  | cons s ss ih =>
      intro l g hg
      rcases List.mem_cons.mp hg with h | h
      · subst h
        exact ⟨[], l.drop s, by simp⟩
      · obtain ⟨u, v, huv⟩ := ih (l.drop s) g h
        refine ⟨l.take s ++ u, v, ?_⟩
        conv_lhs => rw [← List.take_append_drop s l, huv]
        simp [List.append_assoc]

/-- Dropping the empty groups does not change the joined contents. -/
theorem join_filter_nonempty {α : Type} :
    ∀ gs : List (List α), (gs.filter (fun g => !g.isEmpty)).flatten = gs.flatten := by
  intro gs
  induction gs with
  | nil => rfl
  | cons g gs ih =>
      cases g with
      | nil => simpa using ih
      | cons a g => simp [List.filter_cons, ih]

/-- A list of non-empty lists is no longer than its join. -/
theorem length_le_join_length {α : Type} :
    ∀ gs : List (List α), (∀ g ∈ gs, g ≠ []) → gs.length ≤ gs.flatten.length := by
  intro gs
  induction gs with
  | nil => intro _; simp
  | cons g gs ih =>
      intro h
      have hg : g ≠ [] := h g (List.mem_cons_self _ _)
      have h1 : 1 ≤ g.length := List.length_pos.mpr hg
      have h2 := ih (fun x hx => h x (List.mem_cons_of_mem _ hx))
      simp only [List.length_cons, List.flatten_cons, List.length_append]
      omega

/-- Mapping inside each group commutes with joining. -/
theorem join_map_map {α β : Type} (f : α → β) :
    ∀ gs : List (List α), (gs.map (fun g => g.map f)).flatten = gs.flatten.map f := by
  intro gs
  induction gs with
  | nil => rfl
  | cons g gs ih =>
      rw [List.map_cons, List.flatten_cons, List.flatten_cons, List.map_append, ih]

/-- Looking up a key just written into a dict returns the written value. -/
theorem getKey_setKey_same (o : Options) (k : String) (v : Val) :
    getKey (setKey o k v) k = some v := by
  induction o with
  | nil => simp [setKey, getKey]
  | cons p rest ih =>
      obtain ⟨k1, v1⟩ := p
      by_cases h : k1 = k
      · simp [setKey, h, getKey]
      · simp [setKey, h, getKey, ih]

/-- Writing one key leaves the binding of any other key unchanged. -/
theorem getKey_setKey_other (o : Options) (k k2 : String) (v : Val)
    (hne : k2 ≠ k) :
    getKey (setKey o k v) k2 = getKey o k2 := by
  induction o with
  | nil => simp [setKey, getKey, Ne.symm hne]
  | cons p rest ih =>
      obtain ⟨k1, v1⟩ := p
      by_cases h : k1 = k
      · subst h
        simp [setKey, getKey, Ne.symm hne, hne]
      · by_cases h2 : k1 = k2
        · subst h2
          simp [setKey, h, getKey]
        · simp [setKey, h, getKey, h2, ih]

/-- Reading an address right after writing it returns the written dict. -/
theorem Heap.read_write_same (h : Heap) (a : Addr) (o : Options) :
    (h.write a o).read a = o := by
  simp [Heap.read, Heap.write]

/-- The retry helper returns after its first attempt when the retried thunk
cannot fail, whatever the attempt budget. -/
theorem call_with_retry_pure_ok {α : Type} (g : Nat → α) (d : String)
    (pats : List String) (ma mb : Nat) :
    call_with_retry (fun k => Except.ok (g k)) d pats ma mb =
      (Except.ok (g 0), 1) := by
  unfold call_with_retry
  rcases ma with _ | _ | n <;> rfl

/-- _read_fragments_with_retry always performs exactly one attempt of the
retried thunk and hands back the untouched generator of attempt zero: the
thunk only constructs the generator, which cannot raise. -/
theorem read_fragments_with_retry_gen (env : ScanEnv) (ids : List Nat)
    (ds : LanceDataset) (a : Addr) (rp : RetryParams) :
    _read_fragments_with_retry env ids ds a rp =
      (Except.ok (_read_fragments env 0 ids ds a), 1) := by
  unfold _read_fragments_with_retry
  exact call_with_retry_pure_ok (fun k => _read_fragments env k ids ds a) _ _ _ _

/-- Invoking a read task always amounts to draining the attempt-zero
generator: the retry wrapper never re-runs a failed scan body. -/
theorem invokeReadTask_eq_drain (env : ScanEnv) (t : ReadTaskRepr) (h : Heap) :
    invokeReadTask env t h =
      (_read_fragments env 0 t.fragment_ids t.lance_ds t.scanner_options).drain h := by
  unfold invokeReadTask
  rw [read_fragments_with_retry_gen]

/-- get_read_tasks raises the numpy ValueError for non-positive
parallelism. -/
theorem get_read_tasks_nonpos (st : LanceDatasource) (p : Int) (hp : p ≤ 0) :
    get_read_tasks st p =
      Except.error ⟨"number sections must be larger than 0."⟩ := by
  simp only [get_read_tasks, array_split, if_pos hp]

/-- get_read_tasks for positive parallelism: numpy splitting, dropping of
empty groups, and one task per kept group. -/
theorem get_read_tasks_ok (st : LanceDatasource) (p : Int) (hp : 1 ≤ p) :
    get_read_tasks st p =
      Except.ok (((splitBySizes st.lance_ds.get_fragments
          (sectionSizes st.lance_ds.get_fragments.length p.toNat)).filter
        (fun fragments => !fragments.isEmpty)).map (taskOfGroup st)) := by
  simp only [get_read_tasks, array_split, if_neg (show ¬p ≤ 0 by omega)]

/-- Every returned read task is the task of some kept non-empty group. -/
theorem mem_get_read_tasks (st : LanceDatasource) (p : Int)
    (tasks : List ReadTaskRepr) (ht : get_read_tasks st p = Except.ok tasks)
    (t : ReadTaskRepr) (hm : t ∈ tasks) :
    ∃ g : List Fragment, g ≠ [] ∧
      g ∈ splitBySizes st.lance_ds.get_fragments
          (sectionSizes st.lance_ds.get_fragments.length p.toNat) ∧
      t = taskOfGroup st g := by
  have hp : 1 ≤ p := by
    by_contra hq
    rw [get_read_tasks_nonpos st p (by omega)] at ht
    cases ht
  rw [get_read_tasks_ok st p hp] at ht
  cases ht
  rw [List.mem_map] at hm
  obtain ⟨g, hg, rfl⟩ := hm
  rw [List.mem_filter] at hg
  refine ⟨g, ?_, hg.1, rfl⟩
  intro h
  subst h
  simp at hg

/-- C1: the claim says a transient error raised at any step of a
batch-production attempt, including mid-iteration batch retrieval, is retried
up to ten attempts with capped backoff. In the code the retry helper wraps
only the call of the generator function, which merely constructs the
generator, so the transient error of the first scan attempt surfaces to the
consumer with no retry even though it matches the configured signatures and
the attempt budget is ten, and even though retrying the whole attempt (last
conjunct) would have succeeded on the second attempt. -/
theorem c1_transient_mid_iteration_error_not_retried :
    matchesAny "LanceError(IO): connection reset"
      sampleSt.retry_params.matchList = true ∧
    sampleSt.retry_params.max_attempts = 10 ∧
    sampleSt.retry_params.max_backoff_s = 32 ∧
    (invokeReadTask env1 sampleTask0 sampleHeap).1 =
      ⟨[⟨[1]⟩], some ⟨"LanceError(IO): connection reset"⟩⟩ ∧
    call_with_retry (attemptOutcome env1) "read lance fragments"
        sampleSt.retry_params.matchList 10 32 =
      (Except.ok [⟨[1]⟩, ⟨[2]⟩], 2) :=
  ⟨by decide, by decide, by decide, by decide, by rfl⟩

/-- C2 counterexample: the first sample read unit captures the very
scanner-options dict stored in the factory, and invoking it writes the
fragments key into that shared dict, observable through the factory address
afterwards, refuting the claim that invocation never mutates a shared
scan-options object. -/
theorem c2_counterexample :
    sampleTask0.scanner_options = sampleSt.scanner_options ∧
    getKey (sampleHeap.read sampleSt.scanner_options) "fragments" = none ∧
    getKey ((invokeReadTask okEnv sampleTask0 sampleHeap).2.read
        sampleSt.scanner_options) "fragments" = some (Val.fragments [0, 1]) :=
  ⟨by decide, by decide, by decide⟩

/-- C2 (amended): each read unit's deferred callable receives the factory's
scan-options mapping itself, with no copy; whenever an invocation reaches the
fragment-injection step it writes the resolved fragment list under the
fragments key directly into that shared mapping, mutating the options object
shared with the factory and all other read units. -/
theorem c2_amended_shared_options_mutated (st : LanceDatasource) (p : Int)
    (tasks : List ReadTaskRepr) (t : ReadTaskRepr) (env : ScanEnv) (h : Heap)
    (bs : List Batch) (after : Option Err)
    (ht : get_read_tasks st p = Except.ok tasks) (hm : t ∈ tasks)
    (henv : env.outcome 0 = ScanOutcome.yields bs after) :
    t.scanner_options = st.scanner_options ∧
    (invokeReadTask env t h).2.read st.scanner_options =
      setKey (h.read st.scanner_options) "fragments"
        (Val.fragments ((t.fragment_ids.filterMap st.lance_ds.get_fragment).map
          (fun f => f.metadata.id))) := by
  obtain ⟨g, hg, hgm, rfl⟩ := mem_get_read_tasks st p tasks ht t hm
  refine ⟨rfl, ?_⟩
  rw [invokeReadTask_eq_drain]
  unfold Generator.drain _read_fragments
  simp only [henv]
  exact Heap.read_write_same _ _ _

/-- Witness for the amended C2 at the sample datasource. -/
theorem c2_amended_witness :
    sampleTask0.scanner_options = sampleSt.scanner_options ∧
    (invokeReadTask okEnv sampleTask0 sampleHeap).2.read
        sampleSt.scanner_options =
      setKey (sampleHeap.read sampleSt.scanner_options) "fragments"
        (Val.fragments ((sampleTask0.fragment_ids.filterMap
          sampleSt.lance_ds.get_fragment).map (fun f => f.metadata.id))) :=
  c2_amended_shared_options_mutated sampleSt 2 sampleTasks sampleTask0 okEnv
    sampleHeap [⟨[1]⟩] none (by rfl) (by decide) (by rfl)

/-- C3: for parallelism at least one, get_read_tasks returns between zero and
min(F, P) read units, each backed by a non-empty group, and the fragment ids
across all returned groups are exactly the original fragment id list, in
order, with no overlaps and no omissions. -/
theorem c3_partition_complete (st : LanceDatasource) (p : Int) (hp : 1 ≤ p)
    (tasks : List ReadTaskRepr) (ht : get_read_tasks st p = Except.ok tasks) :
    tasks.length ≤ min st.lance_ds.get_fragments.length p.toNat ∧
    (tasks.map ReadTaskRepr.fragment_ids).flatten =
      st.lance_ds.get_fragments.map (fun f => f.metadata.id) ∧
    ∀ t ∈ tasks, t.fragment_ids ≠ [] := by
  rw [get_read_tasks_ok st p hp] at ht
  cases ht
  set frs := st.lance_ds.get_fragments with hfrs
  set n := p.toNat with hn0
  have hn : 1 ≤ n := by omega
  set ss := sectionSizes frs.length n with hss
  have hsum : ss.sum = frs.length := sectionSizes_sum _ _ hn
  set groups := splitBySizes frs ss with hgroups
  set kept := groups.filter (fun fragments => !fragments.isEmpty) with hkept
  have hflat : kept.flatten = frs := by
    rw [hkept, join_filter_nonempty, hgroups,
      splitBySizes_join ss frs (le_of_eq hsum.symm)]
  have hne : ∀ g ∈ kept, g ≠ [] := by
    intro g hgk
    rw [hkept, List.mem_filter] at hgk
    intro hnil
    subst hnil
    simp at hgk
  refine ⟨?_, ?_, ?_⟩
  · have h1 : kept.length ≤ groups.length := List.length_filter_le _ _
    have h2 : groups.length = n := by
      rw [hgroups, splitBySizes_length, hss, sectionSizes_length _ _ hn]
    have h3 : kept.length ≤ frs.length :=
      le_trans (length_le_join_length kept hne) (le_of_eq (by rw [hflat]))
    rw [List.length_map]
    omega
  · rw [List.map_map]
    have hfun : (ReadTaskRepr.fragment_ids ∘ taskOfGroup st) =
        fun g : List Fragment => g.map (fun f => f.metadata.id) := rfl
    rw [hfun, join_map_map, hflat]
  · intro t htm
    rw [List.mem_map] at htm
    obtain ⟨g, hgk, rfl⟩ := htm
    intro hnil
    exact hne g hgk (List.map_eq_nil_iff.mp hnil)

/-- Witness for C3 at the sample datasource with parallelism two. -/
theorem c3_witness :
    sampleTasks.length ≤ min sampleSt.lance_ds.get_fragments.length
      (2 : Int).toNat ∧
    (sampleTasks.map ReadTaskRepr.fragment_ids).flatten =
      sampleSt.lance_ds.get_fragments.map (fun f => f.metadata.id) ∧
    ∀ t ∈ sampleTasks, t.fragment_ids ≠ [] :=
  c3_partition_complete sampleSt 2 (by decide) sampleTasks (by rfl)

/-- C4: every returned group is a contiguous segment of the fragment list and
any two returned groups differ in size by at most one fragment. -/
theorem c4_contiguous_balanced_groups (st : LanceDatasource) (p : Int)
    (hp : 1 ≤ p) (tasks : List ReadTaskRepr)
    (ht : get_read_tasks st p = Except.ok tasks) :
    (∀ t ∈ tasks, ∃ g : List Fragment, g ≠ [] ∧
      (∃ u v, st.lance_ds.get_fragments = u ++ g ++ v) ∧
      t.fragment_ids = g.map (fun f => f.metadata.id)) ∧
    ∀ t1 ∈ tasks, ∀ t2 ∈ tasks,
      t1.fragment_ids.length ≤ t2.fragment_ids.length + 1 := by
  have hn : 1 ≤ p.toNat := by omega
  have hsum : (sectionSizes st.lance_ds.get_fragments.length p.toNat).sum =
      st.lance_ds.get_fragments.length := sectionSizes_sum _ _ hn
  have hsize : ∀ t ∈ tasks,
      t.fragment_ids.length = st.lance_ds.get_fragments.length / p.toNat ∨
      t.fragment_ids.length = st.lance_ds.get_fragments.length / p.toNat + 1 := by
    intro t hm
    obtain ⟨g, hg, hgm, rfl⟩ := mem_get_read_tasks st p tasks ht t hm
    have hlen : (taskOfGroup st g).fragment_ids.length = g.length := by
      simp [taskOfGroup, create_read_task]
    rw [hlen]
    have hmem : g.length ∈ (splitBySizes st.lance_ds.get_fragments
        (sectionSizes st.lance_ds.get_fragments.length p.toNat)).map List.length :=
      List.mem_map_of_mem _ hgm
    rw [splitBySizes_lengths _ _ (le_of_eq hsum)] at hmem
    rcases sectionSizes_mem _ _ _ hmem with h | h
    · exact Or.inl h
    · exact Or.inr h
  constructor
  · intro t hm
    obtain ⟨g, hg, hgm, rfl⟩ := mem_get_read_tasks st p tasks ht t hm
    obtain ⟨u, v, huv⟩ := splitBySizes_mem_contig _ _ _ hgm
    exact ⟨g, hg, ⟨u, v, huv⟩, rfl⟩
  · intro t1 h1 t2 h2
    rcases hsize t1 h1 with ha | ha <;> rcases hsize t2 h2 with hb | hb <;> omega

/-- Witness for C4 at the sample datasource with parallelism two. -/
theorem c4_witness :
    (∀ t ∈ sampleTasks, ∃ g : List Fragment, g ≠ [] ∧
      (∃ u v, sampleSt.lance_ds.get_fragments = u ++ g ++ v) ∧
      t.fragment_ids = g.map (fun f => f.metadata.id)) ∧
    ∀ t1 ∈ sampleTasks, ∀ t2 ∈ sampleTasks,
      t1.fragment_ids.length ≤ t2.fragment_ids.length + 1 :=
  c4_contiguous_balanced_groups sampleSt 2 (by decide) sampleTasks (by rfl)

/-- C5: every returned read unit corresponds to a non-empty contiguous group
of fragments; its metadata row count is the sum of the group's unfiltered
fragment row counts, its input files are the concatenation of the groups'
backing file paths in fragment order, its schema is that of the first
fragment of the group, and size bytes and exec stats are unset. The final
conjunct shows the metadata is unchanged under any reconfiguration of the
scan options, in particular under any row filter, since any datasource over
the same dataset handle reports identical metadata. -/
theorem c5_metadata_from_fragments (st st2 : LanceDatasource) (p : Int)
    (tasks tasks2 : List ReadTaskRepr) (t : ReadTaskRepr)
    (ht : get_read_tasks st p = Except.ok tasks) (hm : t ∈ tasks)
    (hds : st2.lance_ds = st.lance_ds)
    (ht2 : get_read_tasks st2 p = Except.ok tasks2) :
    (∃ g : List Fragment, g ≠ [] ∧
      (∃ u v, st.lance_ds.get_fragments = u ++ g ++ v) ∧
      t.fragment_ids = g.map (fun f => f.metadata.id) ∧
      t.metadata.num_rows = (g.map Fragment.count_rows).sum ∧
      t.metadata.input_files =
        g.flatMap (fun f => f.data_files.map DataFile.path) ∧
      t.metadata.schema = g.head?.map Fragment.schema ∧
      t.metadata.size_bytes = none ∧ t.metadata.exec_stats = none) ∧
    tasks2.map ReadTaskRepr.metadata = tasks.map ReadTaskRepr.metadata := by
  constructor
  · obtain ⟨g, hg, hgm, rfl⟩ := mem_get_read_tasks st p tasks ht t hm
    obtain ⟨u, v, huv⟩ := splitBySizes_mem_contig _ _ _ hgm
    exact ⟨g, hg, ⟨u, v, huv⟩, rfl, rfl, rfl, rfl, rfl, rfl⟩
  · have hp : 1 ≤ p := by
      by_contra hq
      rw [get_read_tasks_nonpos st p (by omega)] at ht
      cases ht
    rw [get_read_tasks_ok st p hp] at ht
    rw [get_read_tasks_ok st2 p hp] at ht2
    cases ht
    cases ht2
    have hmd : ∀ s : LanceDatasource, ReadTaskRepr.metadata ∘ taskOfGroup s =
        fun g : List Fragment =>
          ({ num_rows := (g.map Fragment.count_rows).sum
             schema := g.head?.map Fragment.schema
             input_files := g.flatMap (fun f => f.data_files.map DataFile.path)
             size_bytes := none
             exec_stats := none } : BlockMetadata) := fun s => rfl
    rw [List.map_map, List.map_map, hmd, hmd, hds]

/-- Witness for C5: the first sample read unit, compared against the
datasource built with a filter that excludes every row. -/
theorem c5_witness :
    (∃ g : List Fragment, g ≠ [] ∧
      (∃ u v, sampleSt.lance_ds.get_fragments = u ++ g ++ v) ∧
      sampleTask0.fragment_ids = g.map (fun f => f.metadata.id) ∧
      sampleTask0.metadata.num_rows = (g.map Fragment.count_rows).sum ∧
      sampleTask0.metadata.input_files =
        g.flatMap (fun f => f.data_files.map DataFile.path) ∧
      sampleTask0.metadata.schema = g.head?.map Fragment.schema ∧
      sampleTask0.metadata.size_bytes = none ∧
      sampleTask0.metadata.exec_stats = none) ∧
    sampleTasks2.map ReadTaskRepr.metadata =
      sampleTasks.map ReadTaskRepr.metadata :=
  c5_metadata_from_fragments sampleSt sampleSt2 2 sampleTasks sampleTasks2
    sampleTask0 (by rfl) (by decide) (by rfl) (by rfl)

/-- C6: construction builds the retry policy once, as the fixed built-in
transient signature list concatenated with the snapshot of the engine's
configured retried I/O errors, with ten attempts and a thirty-two second
backoff ceiling; every read unit the factory later produces carries exactly
that policy. -/
theorem c6_retry_policy_snapshot (uri : String) (columns : Option (List String))
    (filter : Option String) (so : Option (List (String × String)))
    (sa : Option Addr) (ctx : List String) (ds : LanceDataset) (h : Heap)
    (st : LanceDatasource)
    (hst : st = (LanceDatasource.init uri columns filter so sa ctx ds h).1)
    (p : Int) (tasks : List ReadTaskRepr) (t : ReadTaskRepr)
    (ht : get_read_tasks st p = Except.ok tasks) (hm : t ∈ tasks) :
    st.retry_params =
      { description := "read lance fragments"
        matchList := READ_FRAGMENTS_ERRORS_TO_RETRY ++ ctx
        max_attempts := 10
        max_backoff_s := 32 } ∧
    t.retry_params = st.retry_params := by
  obtain ⟨g, hg, hgm, rfl⟩ := mem_get_read_tasks st p tasks ht t hm
  subst hst
  exact ⟨rfl, rfl⟩

/-- Witness for C6 at the sample construction. -/
theorem c6_witness :
    sampleSt.retry_params =
      { description := "read lance fragments"
        matchList := READ_FRAGMENTS_ERRORS_TO_RETRY ++ ["Timeout"]
        max_attempts := 10
        max_backoff_s := 32 } ∧
    sampleTask0.retry_params = sampleSt.retry_params :=
  c6_retry_policy_snapshot "mem://sample" (some ["a"]) (some "a > 5") none none
    ["Timeout"] sampleDs emptyHeap sampleSt (by rfl) 2 sampleTasks sampleTask0
    (by rfl) (by decide)

/-- C7: a given column projection and filter expression are written into the
scan-parameters dict at construction, overwriting any same-named bindings the
caller mapping already had, and every read unit the factory produces scans
through that very merged mapping. -/
theorem c7_projection_filter_overwrite (uri : String) (cs : List String)
    (fl : String) (so : Option (List (String × String))) (sa : Option Addr)
    (ctx : List String) (ds : LanceDataset) (h : Heap) (st : LanceDatasource)
    (h2 : Heap)
    (hst : st = (LanceDatasource.init uri (some cs) (some fl) so sa ctx ds h).1)
    (hh2 : h2 = (LanceDatasource.init uri (some cs) (some fl) so sa ctx ds h).2)
    (p : Int) (tasks : List ReadTaskRepr) (t : ReadTaskRepr)
    (ht : get_read_tasks st p = Except.ok tasks) (hm : t ∈ tasks) :
    getKey (h2.read st.scanner_options) "columns" = some (Val.cols cs) ∧
    getKey (h2.read st.scanner_options) "filter" = some (Val.str fl) ∧
    t.scanner_options = st.scanner_options := by
  obtain ⟨g, hg, hgm, rfl⟩ := mem_get_read_tasks st p tasks ht t hm
  subst hst
  subst hh2
  refine ⟨?_, ?_, rfl⟩
  · simp only [LanceDatasource.init, Heap.read_write_same]
    rw [getKey_setKey_other _ _ _ _ (by decide)]
    exact getKey_setKey_same _ _ _
  · simp only [LanceDatasource.init, Heap.read_write_same]
    exact getKey_setKey_same _ _ _

/-- Witness for C7: the caller dict of heapPrior already binds columns and
filter, and both bindings are overwritten. -/
theorem c7_witness :
    getKey (priorInit.2.read priorInit.1.scanner_options) "columns" =
      some (Val.cols ["a", "b"]) ∧
    getKey (priorInit.2.read priorInit.1.scanner_options) "filter" =
      some (Val.str "x = 1") ∧
    (taskOfGroup priorInit.1 (sampleFragments.take 2)).scanner_options =
      priorInit.1.scanner_options :=
  c7_projection_filter_overwrite "mem://prior" ["a", "b"] "x = 1" none (some 0)
    [] sampleDs heapPrior priorInit.1 priorInit.2 (by rfl) (by rfl) 2 priorTasks
    (taskOfGroup priorInit.1 (sampleFragments.take 2)) (by rfl) (by decide)

/-- C8: the size-estimation method always returns the absent value, never
zero and never any computed byte count. -/
theorem c8_size_estimate_unknown (st : LanceDatasource) :
    estimate_inmemory_data_size st = none ∧
    ∀ b : Nat, estimate_inmemory_data_size st ≠ some b :=
  ⟨rfl, fun _ hb => Option.noConfusion hb⟩

/-- C9 counterexample: a non-None but empty caller mapping, passed together
with a columns list, is not stored by reference; the constructor keeps a
fresh dict instead and the caller object at address zero stays empty and
unmutated, refuting the claim for non-None mappings. -/
theorem c9_counterexample :
    ((LanceDatasource.init "mem://c9" (some ["a"]) none none (some 0) []
        sampleDs heapWithEmptyDict).2).read 0 = [] ∧
    ((LanceDatasource.init "mem://c9" (some ["a"]) none none (some 0) []
        sampleDs heapWithEmptyDict).1).scanner_options ≠ 0 :=
  ⟨by rfl, by decide⟩

/-- C9 (amended): when the caller passes a non-empty (truthy) scanner-options
mapping together with a columns list or a filter expression, the constructor
stores that very mapping object by reference and writes the columns and
filter keys directly into it, mutating the caller's object, and that same
single mapping object is shared by every read unit the factory produces; a
non-None but empty mapping is instead replaced by a fresh dict. -/
theorem c9_amended_nonempty_mapping_shared (uri : String) (cs : List String)
    (fl : String) (so : Option (List (String × String))) (a : Addr)
    (ctx : List String) (ds : LanceDataset) (h : Heap) (st : LanceDatasource)
    (h2 : Heap) (hne : h.read a ≠ [])
    (hst : st =
      (LanceDatasource.init uri (some cs) (some fl) so (some a) ctx ds h).1)
    (hh2 : h2 =
      (LanceDatasource.init uri (some cs) (some fl) so (some a) ctx ds h).2)
    (p : Int) (tasks : List ReadTaskRepr) (t : ReadTaskRepr)
    (ht : get_read_tasks st p = Except.ok tasks) (hm : t ∈ tasks) :
    st.scanner_options = a ∧
    getKey (h2.read a) "columns" = some (Val.cols cs) ∧
    getKey (h2.read a) "filter" = some (Val.str fl) ∧
    t.scanner_options = a := by
  obtain ⟨g, hg, hgm, rfl⟩ := mem_get_read_tasks st p tasks ht t hm
  have horE : orEmptyDict (some a) h = (h, a) := by
    show (if h.read a = [] then h.alloc [] else (h, a)) = (h, a)
    rw [if_neg hne]
  subst hst
  subst hh2
  refine ⟨?_, ?_, ?_, ?_⟩
  · simp only [LanceDatasource.init, horE]
  · simp only [LanceDatasource.init, horE, Heap.read_write_same]
    rw [getKey_setKey_other _ _ _ _ (by decide)]
    exact getKey_setKey_same _ _ _
  · simp only [LanceDatasource.init, horE, Heap.read_write_same]
    exact getKey_setKey_same _ _ _
  · simp only [taskOfGroup, create_read_task, LanceDatasource.init, horE]

/-- Witness for the amended C9 at the non-empty caller dict of heapPrior. -/
theorem c9_amended_witness :
    priorInit.1.scanner_options = 0 ∧
    getKey (priorInit.2.read 0) "columns" = some (Val.cols ["a", "b"]) ∧
    getKey (priorInit.2.read 0) "filter" = some (Val.str "x = 1") ∧
    (taskOfGroup priorInit.1 (sampleFragments.take 2)).scanner_options = 0 :=
  c9_amended_nonempty_mapping_shared "mem://prior" ["a", "b"] "x = 1" none 0 []
    sampleDs heapPrior priorInit.1 priorInit.2 (by decide) (by rfl) (by rfl) 2
    priorTasks (taskOfGroup priorInit.1 (sampleFragments.take 2)) (by rfl)
    (by decide)

/-- C10: for non-positive parallelism, get_read_tasks surfaces the numpy
invalid-argument error raised by the splitting primitive before any read unit
is constructed, and never returns a list. -/
theorem c10_nonpositive_parallelism_raises (st : LanceDatasource) (p : Int)
    (hp : p ≤ 0) :
    get_read_tasks st p =
      Except.error ⟨"number sections must be larger than 0."⟩ ∧
    ∀ tasks : List ReadTaskRepr, get_read_tasks st p ≠ Except.ok tasks := by
  refine ⟨get_read_tasks_nonpos st p hp, ?_⟩
  intro tasks hok
  rw [get_read_tasks_nonpos st p hp] at hok
  cases hok

/-- Witness for C10 at parallelism zero. -/
theorem c10_witness :
    get_read_tasks sampleSt 0 =
      Except.error ⟨"number sections must be larger than 0."⟩ ∧
    ∀ tasks : List ReadTaskRepr, get_read_tasks sampleSt 0 ≠ Except.ok tasks :=
  c10_nonpositive_parallelism_raises sampleSt 0 (by decide)

end LanceRay
